import Mathlib

/-!
# Verification of the cache-backed admission-control engine

Shallow embedding of the rate-limiting subsystem of the `webapp-template`
backend:

* `backend/backend/rate_limiter/depends.py` — `RateLimiter.__init__`,
  `RateLimiter._check`, `RateLimiter.__call__`,
  `WebSocketRateLimiter.__call__`;
* `backend/backend/rate_limiter/__init__.py` — `FastAPILimiter.get_cache`,
  `http_default_callback`, `ws_default_callback`;
* `backend/backend/cache/cache_manager.py` — `CacheManager` (get/set),
  `get_cache_manager`, `init_cache_manager`.

Modelling conventions:

* Python floats returned by `time.time()` are modelled as exact rationals
  (`ℚ`); Python integers as `ℤ`.
* Each call to `_check` samples the clock several times (`time.time()` at
  lines 54, 61, 63, 69 of `depends.py`); the embedding passes a single
  `now : ℚ` per check, i.e. the clock is assumed not to advance inside one
  check.
* The store backing `CacheManager` is modelled at two levels of fidelity:
  - `Store` (`String → Option RateRecord`) is the unbounded-dictionary
    abstraction: it is faithful to `CacheManager.get`/`CacheManager.set`
    as long as the underlying `cachetools.TTLCache` neither evicts the
    entry for capacity reasons nor expires it (entries within capacity and
    within the cache-level TTL behave exactly like dictionary entries).
  - `TTLCacheState` models the bounded `cachetools.TTLCache` itself
    (capacity eviction in insertion/update order after lazy expiry), the
    store actually installed by `api.py` (`init_cache_manager(max_size=2000,
    ttl=3600)`wraps `TTLCache(maxsize=2000, ttl=3600)`).
* `CacheManager`'s `threading.RLock` is scoped to one method call
  (`get`, `set`, ... each do `with self.lock`).  A single cache operation is
  therefore atomic, but `RateLimiter._check` performs its `cache.get` and
  `cache.set` under two separate lock acquisitions.  `RateLimiter.checkTail`
  below is the part of `_check` after the `get` returned, so that
  interleavings of whole checks at the lock granularity can be expressed.
-/

namespace WebappTemplate

/-- Python `int(x)` applied to a float/rational: truncation toward zero. -/
def pyInt (q : ℚ) : ℤ := if 0 ≤ q then ⌊q⌋ else ⌈q⌉

/-- The value `RateLimiter._check` stores in the cache for a key:
the Python tuple `(count, expiry)` where `count` is the number of admitted
requests in the current window and `expiry` the float timestamp
`time.time() + self.ttl_seconds` at which the window ends. -/
structure RateRecord where
  count : ℤ
  expiry : ℚ
  deriving DecidableEq, Repr

/-- Embedding of `RateLimiter.__init__` configuration state
(`depends.py` lines 28-44): `times` is stored unchanged; the four duration
components are folded into `ttl_seconds` by
`milliseconds // 1000 + seconds + 60 * minutes + 3600 * hours`
(Python floor division) and then clamped by `max(1, ...)`. -/
structure RateLimiter where
  times : ℤ
  ttl_seconds : ℤ
  deriving DecidableEq, Repr

/-- `RateLimiter.__init__(times, milliseconds, seconds, minutes, hours)`:
Python `//` is floor division, `Int.fdiv` in Lean. -/
def RateLimiter.init (times milliseconds seconds minutes hours : ℤ) :
    RateLimiter :=
  { times := times
    ttl_seconds :=
      max 1 (Int.fdiv milliseconds 1000 + seconds + 60 * minutes +
        3600 * hours) }

/-- The unbounded-dictionary abstraction of the store behind
`CacheManager`: a partial map from composite key to the stored tuple. -/
def Store : Type := String → Option RateRecord

/-- `CacheManager.get` (cache_manager.py lines 73-89): return the stored
value, `None` when absent. -/
def Store.get (st : Store) (key : String) : Option RateRecord := st key

/-- `CacheManager.set` (cache_manager.py lines 91-101): insert or
overwrite. -/
def Store.set (st : Store) (key : String) (v : RateRecord) : Store :=
  fun k => if k = key then some v else st k

/-- The store with no entries. -/
def Store.empty : Store := fun _ => none

/-- Outcome of one `RateLimiter._check`, recording which branch of the
fixed-window algorithm was taken.  `_check` itself returns an integer
`pexpire` (0 from the three ALLOW branches, `remaining_ms` from the
limit-exceeded branch); `CheckResult.pexpire` is that projection. -/
inductive CheckResult where
  | allow : CheckResult
  | deny : ℤ → CheckResult
  deriving DecidableEq, Repr

/-- The integer actually returned by `_check`. -/
def CheckResult.pexpire : CheckResult → ℤ
  | .allow => 0
  | .deny ms => ms

/-- Whether the result is an admission. -/
def CheckResult.isAllow : CheckResult → Bool
  | .allow => true
  | .deny _ => false

/-- The tail of `RateLimiter._check` (depends.py lines 52-77): everything
after `current = cache.get(key)` returned, parameterised by the fetched
value `current`.  This is the code executed under lock acquisitions
separate from the initial `get`, so interleavings at the lock granularity
can be expressed by fetching from one store and committing to another. -/
def RateLimiter.checkTail (cfg : RateLimiter) (current : Option RateRecord)
    (st : Store) (key : String) (now : ℚ) : CheckResult × Store :=
  match current with
  | none =>
      (.allow, st.set key ⟨1, now + (cfg.ttl_seconds : ℚ)⟩)
  | some r =>
      if now > r.expiry then
        (.allow, st.set key ⟨1, now + (cfg.ttl_seconds : ℚ)⟩)
      else if r.count ≥ cfg.times then
        (.deny (max 0 (pyInt ((r.expiry - now) * 1000))), st)
      else
        (.allow, st.set key ⟨r.count + 1, r.expiry⟩)

/-- `RateLimiter._check` run without interleaving: the `cache.get(key)`
immediately followed by the tail, on the same store. -/
def RateLimiter.check (cfg : RateLimiter) (st : Store) (key : String)
    (now : ℚ) : CheckResult × Store :=
  cfg.checkTail (st.get key) st key now

/-- The `HTTPException` raised by the default denial callbacks
(`rate_limiter/__init__.py`): status `HTTP_429_TOO_MANY_REQUESTS`, detail
`"Too Many Requests"`, and the `Retry-After` header value. -/
structure HTTPExceptionModel where
  status : ℕ
  detail : String
  retryAfter : ℤ
  deriving DecidableEq, Repr

/-- `http_default_callback` (`rate_limiter/__init__.py` lines 44-57):
`expire = ceil(pexpire / 1000)` (Python true division then `math.ceil`),
then raises a 429 with `Retry-After: str(expire)`.  Only the data of the
raised exception is modelled; the `request`/`response` arguments are used
solely for logging. -/
def http_default_callback (pexpire : ℤ) : HTTPExceptionModel :=
  ⟨429, "Too Many Requests", ⌈(pexpire : ℚ) / 1000⌉⟩

/-- `ws_default_callback` (`rate_limiter/__init__.py` lines 60-72): same
computation as the HTTP default callback. -/
def ws_default_callback (pexpire : ℤ) : HTTPExceptionModel :=
  ⟨429, "Too Many Requests", ⌈(pexpire : ℚ) / 1000⌉⟩

/-- Observable outcome of `RateLimiter.__call__` /
`WebSocketRateLimiter.__call__` once the key has been built: either the
guard falls through (request proceeds), or the rejection callback was
invoked with the remaining milliseconds `pexpireArg` and produced
`response`. -/
inductive CallOutcome where
  | passed : CallOutcome
  | rejected : ℤ → HTTPExceptionModel → CallOutcome
  deriving DecidableEq, Repr

/-- The decision-relevant part of `RateLimiter.__call__` (`depends.py`
lines 105-113): run `_check`, then
`if pexpire != 0: return await callback(request, response, pexpire)`.
The default callback is modelled (no per-instance override).  Key
construction from identifier/route scan is abstracted into the given
`key`. -/
def RateLimiter.call (cfg : RateLimiter) (st : Store) (key : String)
    (now : ℚ) : CallOutcome × Store :=
  let p := cfg.check st key now
  let pexpire := p.1.pexpire
  if pexpire ≠ 0 then (.rejected pexpire (http_default_callback pexpire), p.2)
  else (.passed, p.2)

/-- Same for `WebSocketRateLimiter.__call__` (`depends.py` lines 127-136):
`pexpire = await self._check(key)` then
`if pexpire != 0: return await callback(ws, pexpire)` with the WebSocket
default callback. -/
def WebSocketRateLimiter.call (cfg : RateLimiter) (st : Store) (key : String)
    (now : ℚ) : CallOutcome × Store :=
  let p := cfg.check st key now
  let pexpire := p.1.pexpire
  if pexpire ≠ 0 then (.rejected pexpire (ws_default_callback pexpire), p.2)
  else (.passed, p.2)

/-- The process-wide `_cache_manager` global of `cache_manager.py`:
`none` before `init_cache_manager` (or after `close_cache_manager`),
`some st` once initialized with backing store `st`. -/
def GlobalCacheManager : Type := Option Store

/-- `get_cache_manager` (`cache_manager.py` lines 248-262): raises
`RuntimeError` when the global is `None`, otherwise returns it.
`FastAPILimiter.get_cache` (`rate_limiter/__init__.py` lines 95-98) simply
forwards to this function. -/
def get_cache_manager (g : GlobalCacheManager) : Except String Store :=
  match g with
  | none => .error "Cache manager not initialized. Call init_cache_manager() first."
  | some st => .ok st

/-- Python truthiness of a `CacheManager` instance: the class defines
neither `__bool__` nor `__len__`, so `bool(manager)` is always `True`. -/
def cacheManagerTruthy (_st : Store) : Bool := true

/-- `RateLimiter.__call__` from the top (`depends.py` lines 83-113)
including the lifecycle errors: `cache = FastAPILimiter.get_cache()`
(which raises `RuntimeError` when uninitialized), then the dead guard
`if not cache: raise Exception("You must call FastAPILimiter.init in
startup event of fastapi!")`, then the admission logic.  `_check`'s inner
`FastAPILimiter.get_cache()` call sees the same unchanged global. -/
def RateLimiter.callFull (g : GlobalCacheManager) (cfg : RateLimiter)
    (key : String) (now : ℚ) : Except String (CallOutcome × Store) :=
  match get_cache_manager g with
  | .error e => .error e
  | .ok st =>
      if ¬ cacheManagerTruthy st then
        .error "You must call FastAPILimiter.init in startup event of fastapi!"
      else
        .ok (RateLimiter.call cfg st key now)

/-- `WebSocketRateLimiter.__call__` from the top (`depends.py` lines
117-136), with the same structure. -/
def WebSocketRateLimiter.callFull (g : GlobalCacheManager)
    (cfg : RateLimiter) (key : String) (now : ℚ) :
    Except String (CallOutcome × Store) :=
  match get_cache_manager g with
  | .error e => .error e
  | .ok st =>
      if ¬ cacheManagerTruthy st then
        .error "You must call FastAPILimiter.init in startup event of fastapi!"
      else
        .ok (WebSocketRateLimiter.call cfg st key now)

/-- Sequential (non-interleaved) execution of one limiter against one key
at a list of clock instants: each `_check` runs to completion before the
next begins, which is what the single-threaded event loop provides
(`_check` contains no `await` between its `get` and its `set`). -/
def RateLimiter.runChecks (cfg : RateLimiter) (key : String) :
    List ℚ → Store → List CheckResult × Store
  | [], st => ([], st)
  | t :: ts, st =>
      let p := cfg.check st key t
      let q := cfg.runChecks key ts p.2
      (p.1 :: q.1, q.2)

/-- One timestamped admission check of some limiter instance against some
composite key, all sharing the one process-wide store. -/
structure CheckEvent where
  cfg : RateLimiter
  key : String
  now : ℚ

/-- Sequential execution of a mixed list of checks (several limiter
instances, several keys) against the shared store, recording each check's
key with its outcome. -/
def runEvents : List CheckEvent → Store → List (String × CheckResult) × Store
  | [], st => ([], st)
  | e :: es, st =>
      let p := e.cfg.check st e.key e.now
      let q := runEvents es p.2
      ((e.key, p.1) :: q.1, q.2)

/-!
## The bounded store actually deployed

`api.py` installs `init_cache_manager(max_size=2000, ttl=3600)`, i.e. a
`cachetools.TTLCache(maxsize=2000, ttl=3600)` behind `CacheManager`.  The
following models that third-party container for the operations the
limiter uses (`get`, `__setitem__`), with `getsizeof` constant 1:

* entries carry a cache-level expiry `now + ttl` fixed at insertion;
* a read returns the value only while `linkExpires > now` (lazy expiry)
  and does not reorder anything;
* a write first drops expired entries, then — only when the key is not
  already present — evicts from the front (oldest set/update first, since
  `__setitem__` appends/moves the link to the end and reads never
  reorder) until there is room, then appends the entry at the end;
* `Cache.__setitem__` raises `ValueError("value too large")` whenever the
  entry size (1) exceeds `maxsize`; no capacity validation happens at
  construction time (`Cache.__init__` merely stores `maxsize`).
-/

/-- State of a `cachetools.TTLCache`: capacity, cache-level TTL, and the
live entries as `(key, value, linkExpires)` in link order (front =
evicted first). -/
structure TTLCacheState where
  maxsize : ℤ
  ttl : ℤ
  entries : List (String × RateRecord × ℚ)
  deriving DecidableEq, Repr

/-- `TTLCache.__getitem__`/`.get`: the stored value unless absent or
lazily expired (`not (link.expires > timer())`). -/
def TTLCacheState.get (c : TTLCacheState) (key : String) (now : ℚ) :
    Option RateRecord :=
  match c.entries.find? (fun e => e.1 == key) with
  | none => none
  | some e => if now < e.2.2 then some e.2.1 else none

/-- `TTLCache.__setitem__`: raise when one entry cannot fit at all;
otherwise expire, evict from the front while over capacity (only when
inserting a new key), and append the entry with a fresh link expiry. -/
def TTLCacheState.set (c : TTLCacheState) (key : String) (v : RateRecord)
    (now : ℚ) : Except String TTLCacheState :=
  if 1 > c.maxsize then .error "value too large"
  else
    let live := c.entries.filter (fun e => now < e.2.2)
    let room :=
      if live.any (fun e => e.1 == key) then live
      else live.drop (((live.length : ℤ) + 1 - c.maxsize).toNat)
    let rest := room.filter (fun e => e.1 != key)
    .ok { c with entries := rest ++ [(key, v, now + (c.ttl : ℚ))] }

/-- `RateLimiter._check` run against the deployed bounded `TTLCache`,
including the `try/except` wrapper that re-raises cache errors as
`"Cache rate limiter error: ..."`. -/
def RateLimiter.checkTTL (cfg : RateLimiter) (c : TTLCacheState)
    (key : String) (now : ℚ) : Except String (CheckResult × TTLCacheState) :=
  let body : Except String (CheckResult × TTLCacheState) :=
    match c.get key now with
    | none => (c.set key ⟨1, now + (cfg.ttl_seconds : ℚ)⟩ now).map
        (fun c₂ => (.allow, c₂))
    | some r =>
        if now > r.expiry then
          (c.set key ⟨1, now + (cfg.ttl_seconds : ℚ)⟩ now).map
            (fun c₂ => (.allow, c₂))
        else if r.count ≥ cfg.times then
          .ok (.deny (max 0 (pyInt ((r.expiry - now) * 1000))), c)
        else
          (c.set key ⟨r.count + 1, r.expiry⟩ now).map (fun c₂ => (.allow, c₂))
  match body with
  | .error e => .error ("Cache rate limiter error: " ++ e)
  | .ok p => .ok p

/-- The cache state a successful bounded check leaves behind (the input
state when the check raised). -/
def RateLimiter.checkTTLState (cfg : RateLimiter) (c : TTLCacheState)
    (key : String) (now : ℚ) : TTLCacheState :=
  match cfg.checkTTL c key now with
  | .ok p => p.2
  | .error _ => c

/-- The decision a bounded check produced, `none` when it raised. -/
def RateLimiter.checkTTLResult (cfg : RateLimiter) (c : TTLCacheState)
    (key : String) (now : ℚ) : Option CheckResult :=
  match cfg.checkTTL c key now with
  | .ok p => some p.1
  | .error _ => none

/-- State of a `cachetools.LRUCache` as `LRUCache(maxsize=...)` creates
it: capacity plus the (initially empty) entries in recency order. -/
structure LRUCacheState where
  maxsize : ℤ
  entries : List (String × RateRecord)
  deriving DecidableEq, Repr

/-- The cache object `CacheManager._init_cache` ends up holding. -/
inductive CacheBackend where
  | ttl : TTLCacheState → CacheBackend
  | lru : LRUCacheState → CacheBackend
  deriving DecidableEq, Repr

/-- `CacheManager._init_cache` (`cache_manager.py` lines 56-71) for the
two selectable policies: `TTLCache(maxsize=max_size, ttl=ttl)` resp.
`LRUCache(maxsize=max_size)`.  Neither `cachetools` constructor validates
`maxsize` (both merely store it), so the `try/except` raising
`"Failed to initialize cache: ..."` is never triggered on these branches
and construction succeeds for every capacity. -/
inductive CacheType where
  | TTLCache : CacheType
  | LRUCache : CacheType
  deriving DecidableEq, Repr

def CacheManager.initCache (cache_type : CacheType) (max_size ttl : ℤ) :
    Except String CacheBackend :=
  match cache_type with
  | .TTLCache => .ok (.ttl ⟨max_size, ttl, []⟩)
  | .LRUCache => .ok (.lru ⟨max_size, []⟩)


section StoreLemmas

theorem Store.get_set_self (st : Store) (key : String) (v : RateRecord) :
    (st.set key v).get key = some v := by
  simp [Store.get, Store.set]

theorem Store.get_set_ne (st : Store) {k key : String} (v : RateRecord)
    (h : k ≠ key) : (st.set key v).get k = st.get k := by
  simp [Store.get, Store.set, h]

theorem Store.set_set (st : Store) (key : String) (v w : RateRecord) :
    (st.set key v).set key w = st.set key w := by
  funext k
  simp only [Store.set]
  by_cases h : k = key <;> simp [h]

theorem Store.set_get_eq (st : Store) {key : String} {v : RateRecord}
    (h : st.get key = some v) : st.set key v = st := by
  funext k
  simp only [Store.set]
  by_cases hk : k = key
  · subst hk; simpa [Store.get] using h.symm
  · simp [hk]

end StoreLemmas

section CheckBranchLemmas

/-- Branch of `_check` for an absent record (`current is None`). -/
theorem RateLimiter.check_fresh (cfg : RateLimiter) {st : Store}
    {key : String} (now : ℚ) (h : st.get key = none) :
    cfg.check st key now =
      (.allow, st.set key ⟨1, now + (cfg.ttl_seconds : ℚ)⟩) := by
  simp [RateLimiter.check, RateLimiter.checkTail, h]

/-- Branch of `_check` for an elapsed window (`time.time() > expiry`). -/
theorem RateLimiter.check_expired (cfg : RateLimiter) {st : Store}
    {key : String} {r : RateRecord} (now : ℚ) (h : st.get key = some r)
    (hlate : now > r.expiry) :
    cfg.check st key now =
      (.allow, st.set key ⟨1, now + (cfg.ttl_seconds : ℚ)⟩) := by
  simp [RateLimiter.check, RateLimiter.checkTail, h, hlate]

/-- Branch of `_check` for a saturated window (`count >= self.times`). -/
theorem RateLimiter.check_deny (cfg : RateLimiter) {st : Store}
    {key : String} {r : RateRecord} (now : ℚ) (h : st.get key = some r)
    (hwin : ¬ now > r.expiry) (hcount : r.count ≥ cfg.times) :
    cfg.check st key now =
      (.deny (max 0 (pyInt ((r.expiry - now) * 1000))), st) := by
  simp [RateLimiter.check, RateLimiter.checkTail, h, hwin, hcount]

/-- Branch of `_check` that increments (`count < self.times`). -/
theorem RateLimiter.check_incr (cfg : RateLimiter) {st : Store}
    {key : String} {r : RateRecord} (now : ℚ) (h : st.get key = some r)
    (hwin : ¬ now > r.expiry) (hcount : ¬ r.count ≥ cfg.times) :
    cfg.check st key now = (.allow, st.set key ⟨r.count + 1, r.expiry⟩) := by
  simp [RateLimiter.check, RateLimiter.checkTail, h, hwin, hcount]

/-- A check reads and writes only its own key. -/
theorem RateLimiter.check_frame (cfg : RateLimiter) (st : Store)
    {k key : String} (now : ℚ) (h : k ≠ key) :
    (cfg.check st key now).2 k = st k := by
  simp only [RateLimiter.check, RateLimiter.checkTail, Store.get]
  cases hr : st key with
  | none => simp [Store.set, h]
  | some r =>
      by_cases hlate : now > r.expiry
      · simp [hlate, Store.set, h]
      · by_cases hcount : r.count ≥ cfg.times
        · simp [hlate, hcount]
        · simp [hlate, hcount, Store.set, h]

/-- A check's outcome and its effect on its own key depend only on the
store's value at that key. -/
theorem RateLimiter.check_congr (cfg : RateLimiter) {st₁ st₂ : Store}
    (key : String) (now : ℚ) (h : st₁ key = st₂ key) :
    (cfg.check st₁ key now).1 = (cfg.check st₂ key now).1 ∧
      (cfg.check st₁ key now).2 key = (cfg.check st₂ key now).2 key := by
  simp only [RateLimiter.check, RateLimiter.checkTail, Store.get, h]
  cases hr : st₂ key with
  | none => simp [Store.set]
  | some r =>
      by_cases hlate : now > r.expiry
      · simp [hlate, Store.set]
      · by_cases hcount : r.count ≥ cfg.times
        · simp [hlate, hcount, h]
        · simp [hlate, hcount, Store.set]

end CheckBranchLemmas

section RunChecksLemmas

theorem RateLimiter.runChecks_nil (cfg : RateLimiter) (key : String)
    (st : Store) : cfg.runChecks key [] st = ([], st) := rfl

theorem RateLimiter.runChecks_cons (cfg : RateLimiter) (key : String)
    (t : ℚ) (ts : List ℚ) (st : Store) :
    cfg.runChecks key (t :: ts) st =
      ((cfg.check st key t).1 ::
        (cfg.runChecks key ts (cfg.check st key t).2).1,
       (cfg.runChecks key ts (cfg.check st key t).2).2) := rfl

theorem RateLimiter.runChecks_append (cfg : RateLimiter) (key : String)
    (l₁ l₂ : List ℚ) (st : Store) :
    cfg.runChecks key (l₁ ++ l₂) st =
      ((cfg.runChecks key l₁ st).1 ++
        (cfg.runChecks key l₂ (cfg.runChecks key l₁ st).2).1,
       (cfg.runChecks key l₂ (cfg.runChecks key l₁ st).2).2) := by
  induction l₁ generalizing st with
  | nil => simp [runChecks_nil]
  | cons t ts ih =>
      simp only [List.cons_append, runChecks_cons, ih]

/-- While the stored count is below the limit and every check lands inside
the stored window, each check admits and increments: running `ts.length`
checks turns count `c` into `c + ts.length` and answers ALLOW throughout. -/
theorem RateLimiter.runChecks_under (cfg : RateLimiter) (key : String)
    (ts : List ℚ) (st : Store) (c : ℤ) (e : ℚ)
    (hrec : st.get key = some ⟨c, e⟩)
    (hin : ∀ u ∈ ts, u ≤ e)
    (hroom : c + ts.length ≤ cfg.times) :
    cfg.runChecks key ts st =
      (List.replicate ts.length .allow, st.set key ⟨c + ts.length, e⟩) := by
  induction ts generalizing st c with
  | nil =>
      simp [runChecks_nil, Store.set_get_eq st hrec]
  | cons t ts ih =>
      have ht : t ≤ e := hin t (by simp)
      have hwin : ¬ t > e := not_lt.mpr ht
      have hcount : ¬ c ≥ cfg.times := by
        simp only [List.length_cons] at hroom
        push_cast at hroom
        omega
      have hstep := cfg.check_incr t hrec hwin hcount
      rw [runChecks_cons, hstep]
      have hrec' : (st.set key ⟨c + 1, e⟩).get key = some ⟨c + 1, e⟩ :=
        Store.get_set_self st key _
      have hin' : ∀ u ∈ ts, u ≤ e := fun u hu => hin u (by simp [hu])
      have hroom' : c + 1 + ts.length ≤ cfg.times := by
        simp only [List.length_cons] at hroom
        push_cast at hroom ⊢
        omega
      rw [ih _ _ hrec' hin' hroom', Store.set_set]
      simp only [List.length_cons, List.replicate_succ, Prod.mk.injEq]
      refine ⟨trivial, ?_⟩
      push_cast
      ring_nf

/-- Once the stored count has reached the limit, every further check
inside the window denies with the remaining time and leaves the store
untouched. -/
theorem RateLimiter.runChecks_saturated (cfg : RateLimiter) (key : String)
    (ts : List ℚ) (st : Store) (c : ℤ) (e : ℚ)
    (hrec : st.get key = some ⟨c, e⟩)
    (hin : ∀ u ∈ ts, u ≤ e)
    (hfull : c ≥ cfg.times) :
    cfg.runChecks key ts st =
      (ts.map (fun u => .deny (max 0 (pyInt ((e - u) * 1000)))), st) := by
  induction ts with
  | nil => simp [runChecks_nil]
  | cons t ts ih =>
      have ht : t ≤ e := hin t (by simp)
      have hwin : ¬ t > e := not_lt.mpr ht
      have hstep := cfg.check_deny t hrec hwin hfull
      rw [runChecks_cons, hstep]
      have hin' : ∀ u ∈ ts, u ≤ e := fun u hu => hin u (by simp [hu])
      rw [ih hin']
      simp

end RunChecksLemmas

section AuxiliaryBridges

/-- Python `a // 1000` agrees with the mathematical
`⌊a / 1000⌋` computed in exact rational arithmetic. -/
theorem fdiv_thousand_eq_floor (a : ℤ) :
    Int.fdiv a 1000 = ⌊(a : ℚ) / 1000⌋ := by
  rw [Int.fdiv_eq_ediv _ (by norm_num)]
  have h := Rat.floor_intCast_div_natCast a 1000
  push_cast at h
  rw [h]

/-- `pyInt` is the floor on non-negative arguments. -/
theorem pyInt_nonneg (q : ℚ) (h : 0 ≤ q) : pyInt q = ⌊q⌋ := by
  simp [pyInt, h]

theorem countP_isAllow_replicate (n : ℕ) :
    (List.replicate n CheckResult.allow).countP (fun r => r.isAllow) = n := by
  induction n with
  | zero => rfl
  | succ n ih =>
      rw [List.replicate_succ, List.countP_cons, ih]
      simp [CheckResult.isAllow]

theorem countP_not_isAllow_replicate (n : ℕ) :
    (List.replicate n CheckResult.allow).countP (fun r => ! r.isAllow) = 0 := by
  induction n with
  | zero => rfl
  | succ n ih =>
      rw [List.replicate_succ, List.countP_cons, ih]
      simp [CheckResult.isAllow]

theorem countP_isAllow_map_deny (ts : List ℚ) (f : ℚ → ℤ) :
    (ts.map fun u => CheckResult.deny (f u)).countP (fun r => r.isAllow) = 0 := by
  induction ts with
  | nil => rfl
  | cons t ts ih =>
      rw [List.map_cons, List.countP_cons, ih]
      simp [CheckResult.isAllow]

theorem countP_not_isAllow_map_deny (ts : List ℚ) (f : ℚ → ℤ) :
    (ts.map fun u => CheckResult.deny (f u)).countP (fun r => ! r.isAllow) =
      ts.length := by
  induction ts with
  | nil => rfl
  | cons t ts ih =>
      rw [List.map_cons, List.countP_cons, ih]
      simp [CheckResult.isAllow]

theorem runEvents_nil (st : Store) : runEvents [] st = ([], st) := rfl

theorem runEvents_cons (e : CheckEvent) (es : List CheckEvent) (st : Store) :
    runEvents (e :: es) st =
      ((e.key, (e.cfg.check st e.key e.now).1) ::
        (runEvents es (e.cfg.check st e.key e.now).2).1,
       (runEvents es (e.cfg.check st e.key e.now).2).2) := rfl

/-- Generalized key-independence: as long as two stores agree at key `A`,
running any event list on the first and only its `A`-events on the second
produces the same `A`-outcomes and the same final value at `A`. -/
theorem runEvents_localized (es : List CheckEvent) (A : String) :
    ∀ st₁ st₂ : Store, st₁ A = st₂ A →
      ((runEvents es st₁).1.filter (fun p => p.1 == A) =
        (runEvents (es.filter (fun e => e.key == A)) st₂).1 ∧
      (runEvents es st₁).2 A =
        (runEvents (es.filter (fun e => e.key == A)) st₂).2 A) := by
  induction es with
  | nil => intro st₁ st₂ h; simpa [runEvents_nil] using h
  | cons e es ih =>
      intro st₁ st₂ h
      by_cases hkey : e.key = A
      · subst hkey
        have hc := @RateLimiter.check_congr e.cfg st₁ st₂ e.key e.now h
        have hfilter : (e :: es).filter (fun x => x.key == e.key) =
            e :: es.filter (fun x => x.key == e.key) := by
          simp [List.filter_cons]
        rw [hfilter, runEvents_cons, runEvents_cons]
        have hih := ih (e.cfg.check st₁ e.key e.now).2
          (e.cfg.check st₂ e.key e.now).2 hc.2
        constructor
        · rw [List.filter_cons]
          simp only [beq_self_eq_true, if_pos]
          rw [hih.1, hc.1]
        · exact hih.2
      · have hfilter : (e :: es).filter (fun x => x.key == A) =
            es.filter (fun x => x.key == A) := by
          simp [List.filter_cons, hkey]
        have hframe : (e.cfg.check st₁ e.key e.now).2 A = st₂ A := by
          rw [e.cfg.check_frame st₁ e.now (Ne.symm hkey), h]
        have hih := ih (e.cfg.check st₁ e.key e.now).2 st₂ hframe
        rw [hfilter, runEvents_cons]
        constructor
        · rw [List.filter_cons]
          simp only [hkey, beq_iff_eq, if_neg]
          exact hih.1
        · exact hih.2

end AuxiliaryBridges

/-!
## The claims
-/

/-- C5: if the process-wide cache manager has not been initialized when a
check is attempted, both the HTTP and the WebSocket entry points raise the
`RuntimeError` of `get_cache_manager` — a configuration error distinct
from a rate-limit denial (`Except.error`, never an `Except.ok` carrying an
ALLOW/DENY outcome). -/
theorem callFull_uninitialized_raises_config_error (cfg : RateLimiter)
    (key : String) (now : ℚ) :
    RateLimiter.callFull none cfg key now =
      .error "Cache manager not initialized. Call init_cache_manager() first." ∧
    WebSocketRateLimiter.callFull none cfg key now =
      .error "Cache manager not initialized. Call init_cache_manager() first." := by
  exact ⟨rfl, rfl⟩

/-- C10: the branch raising `"You must call FastAPILimiter.init in startup
event of fastapi!"` is unreachable in both call shapes:
`FastAPILimiter.get_cache` either raises the `RuntimeError` of
`get_cache_manager` or returns a (always truthy) `CacheManager`, so the
`if not cache` guard never fires. -/
theorem init_guard_branch_unreachable (g : GlobalCacheManager)
    (cfg : RateLimiter) (key : String) (now : ℚ) :
    RateLimiter.callFull g cfg key now ≠
      .error "You must call FastAPILimiter.init in startup event of fastapi!" ∧
    WebSocketRateLimiter.callFull g cfg key now ≠
      .error "You must call FastAPILimiter.init in startup event of fastapi!" := by
  cases g with
  | none =>
      refine ⟨fun h => ?_, fun h => ?_⟩ <;>
        · simp only [RateLimiter.callFull, WebSocketRateLimiter.callFull,
            get_cache_manager, Except.error.injEq] at h
          revert h
          decide
  | some st =>
      refine ⟨fun h => ?_, fun h => ?_⟩ <;>
        simp [RateLimiter.callFull, WebSocketRateLimiter.callFull,
          get_cache_manager, cacheManagerTruthy] at h

/-- C6: the effective window stored by `RateLimiter.__init__`, in seconds,
is `floor(milliseconds / 1000) + seconds + 60 * minutes + 3600 * hours`
(the floor taken in exact arithmetic), clamped to a minimum of 1, for all
component values in the accepted range (each `≥ -1`). -/
theorem ttl_seconds_window_arithmetic (times milliseconds seconds minutes
    hours : ℤ) (hms : milliseconds ≥ -1) (hs : seconds ≥ -1)
    (hm : minutes ≥ -1) (hh : hours ≥ -1) :
    (RateLimiter.init times milliseconds seconds minutes hours).ttl_seconds =
      max 1 (⌊(milliseconds : ℚ) / 1000⌋ + seconds + 60 * minutes +
        3600 * hours) := by
  simp [RateLimiter.init, fdiv_thousand_eq_floor]

/-- Witness for C6 at `milliseconds = -1, seconds = 2, minutes = 1,
hours = 0`: the stored window is `max 1 (-1 + 2 + 60) = 61` seconds. -/
theorem ttl_seconds_window_arithmetic_witness :
    (-1 : ℤ) ≥ -1 ∧ (2 : ℤ) ≥ -1 ∧ (1 : ℤ) ≥ -1 ∧ (0 : ℤ) ≥ -1 ∧
    (RateLimiter.init 3 (-1) 2 1 0).ttl_seconds =
      max 1 (⌊((-1 : ℤ) : ℚ) / 1000⌋ + 2 + 60 * 1 + 3600 * 0) :=
  ⟨by decide, by decide, by decide, by decide,
    ttl_seconds_window_arithmetic 3 (-1) 2 1 0 (by decide) (by decide)
      (by decide) (by decide)⟩

/-- C7: on a DENY decision (record present, window not elapsed, count at
the limit) the check returns exactly `⌊max 0 (windowExpiresAt - now) *
1000⌋` milliseconds as the retry hint and leaves the store — in
particular the stored record — unchanged. -/
theorem check_deny_retry_hint_and_frame (cfg : RateLimiter) (st : Store)
    (key : String) (now : ℚ) (c : ℤ) (e : ℚ)
    (hrec : st.get key = some ⟨c, e⟩) (hwin : ¬ now > e)
    (hcount : c ≥ cfg.times) :
    cfg.check st key now = (.deny ⌊max 0 (e - now) * 1000⌋, st) := by
  rw [cfg.check_deny now hrec hwin hcount]
  have hnn : (0 : ℚ) ≤ (e - now) * 1000 := by
    have : now ≤ e := not_lt.mp hwin
    have h1 : (0 : ℚ) ≤ e - now := by linarith
    positivity
  have hfl : (0 : ℤ) ≤ ⌊(e - now) * 1000⌋ := Int.floor_nonneg.mpr hnn
  have hmax : max (0 : ℚ) (e - now) = e - now := by
    have : now ≤ e := not_lt.mp hwin
    exact max_eq_right (by linarith)
  rw [pyInt_nonneg _ hnn, hmax, max_eq_right hfl]

/-- Witness for C7: limit 2 reached, window `[_, 10]`, check at `now = 4`
denies with `⌊6 * 1000⌋ = 6000` ms and the store is returned as-is. -/
theorem check_deny_retry_hint_and_frame_witness :
    (Store.set Store.empty "k" ⟨2, 10⟩).get "k" = some ⟨2, 10⟩ ∧
    ¬ (4 : ℚ) > 10 ∧ (2 : ℤ) ≥ (RateLimiter.init 2 0 5 0 0).times ∧
    (RateLimiter.init 2 0 5 0 0).check (Store.set Store.empty "k" ⟨2, 10⟩)
        "k" 4 =
      (.deny ⌊max 0 ((10 : ℚ) - 4) * 1000⌋,
        Store.set Store.empty "k" ⟨2, 10⟩) :=
  ⟨rfl, by norm_num, by norm_num [RateLimiter.init],
    check_deny_retry_hint_and_frame _ _ "k" 4 2 10 rfl (by norm_num)
      (by norm_num [RateLimiter.init])⟩

/-- C2 counterexample: with `limit = 0` (the spec admits `limit ≥ 0`) the
claim demands that the `(0+1)`-st check on a fresh key DENY, but the
fresh-key branch of `_check` stores `count = 1` and answers ALLOW without
ever consulting `self.times`. -/
theorem check_limit_zero_first_allows :
    (RateLimiter.init 0 0 5 0 0).times = 0 ∧
    ((RateLimiter.init 0 0 5 0 0).check Store.empty "k" 0).1 = .allow := by
  constructor
  · rfl
  · norm_num [RateLimiter.check, RateLimiter.checkTail, Store.get,
      Store.empty]

/-- C2 (amended to `limit ≥ 1`): for `limit = N ≥ 1` and a fresh composite
key, the first `N` sequential checks within one window all ALLOW and the
`(N+1)`-st check within the same window DENIES (with the window's
remaining milliseconds).  The list is written `t :: mid ++ [u]` with
`N = mid.length + 1`. -/
theorem runChecks_first_N_allow_then_deny (cfg : RateLimiter) (st : Store)
    (key : String) (t u : ℚ) (mid : List ℚ)
    (htimes : cfg.times = (mid.length : ℤ) + 1)
    (hfresh : st.get key = none)
    (hmid : ∀ x ∈ mid, x ≤ t + (cfg.ttl_seconds : ℚ))
    (hu : u ≤ t + (cfg.ttl_seconds : ℚ)) :
    (cfg.runChecks key (t :: (mid ++ [u])) st).1 =
      .allow :: (List.replicate mid.length .allow ++
        [.deny (max 0 (pyInt ((t + (cfg.ttl_seconds : ℚ) - u) * 1000)))]) := by
  rw [RateLimiter.runChecks_cons, cfg.check_fresh t hfresh,
    RateLimiter.runChecks_append]
  have hrec₁ : (st.set key ⟨1, t + (cfg.ttl_seconds : ℚ)⟩).get key =
      some ⟨1, t + (cfg.ttl_seconds : ℚ)⟩ := Store.get_set_self st key _
  have hroom : (1 : ℤ) + mid.length ≤ cfg.times := by
    rw [htimes]; omega
  rw [cfg.runChecks_under key mid _ 1 _ hrec₁ hmid hroom]
  have hrec₂ :
      ((st.set key ⟨1, t + (cfg.ttl_seconds : ℚ)⟩).set key
          ⟨1 + mid.length, t + (cfg.ttl_seconds : ℚ)⟩).get key =
        some ⟨1 + mid.length, t + (cfg.ttl_seconds : ℚ)⟩ :=
    Store.get_set_self _ key _
  have hfull : (1 : ℤ) + mid.length ≥ cfg.times := by
    rw [htimes]; omega
  rw [cfg.runChecks_saturated key [u] _ _ _ hrec₂ (by simpa using hu) hfull]
  simp

/-- Witness for C2 (amended): limit 2, fresh key, window 5 s starting at
`t = 0`; checks at 0, 1 ALLOW and the third at 2 DENIES with 3000 ms. -/
theorem runChecks_first_N_allow_then_deny_witness :
    (RateLimiter.init 2 0 5 0 0).times = (([(1 : ℚ)].length : ℤ)) + 1 ∧
    Store.empty.get "k" = none ∧
    (∀ x ∈ [(1 : ℚ)], x ≤ 0 + ((RateLimiter.init 2 0 5 0 0).ttl_seconds : ℚ)) ∧
    ((2 : ℚ) ≤ 0 + ((RateLimiter.init 2 0 5 0 0).ttl_seconds : ℚ)) ∧
    ((RateLimiter.init 2 0 5 0 0).runChecks "k" (0 :: ([(1 : ℚ)] ++ [2]))
        Store.empty).1 =
      .allow :: (List.replicate [(1 : ℚ)].length .allow ++
        [.deny (max 0 (pyInt ((0 + ((RateLimiter.init 2 0 5 0 0).ttl_seconds : ℚ) - 2)
          * 1000)))]) :=
  ⟨by norm_num [RateLimiter.init], rfl,
    by norm_num [RateLimiter.init], by norm_num [RateLimiter.init],
    runChecks_first_N_allow_then_deny _ _ "k" 0 2 [(1 : ℚ)]
      (by norm_num [RateLimiter.init]) rfl
      (by norm_num [RateLimiter.init]) (by norm_num [RateLimiter.init])⟩

/-- C1 counterexample: the coarse lock in `CacheManager` is scoped to one
cache operation, not to a whole check, so two concurrent checks may both
execute their `cache.get` before either `cache.set`.  Modelled at that
lock granularity: two checks on one fresh key with `limit = 1` (`K = 2 >
N = 1`) BOTH return ALLOW — not "exactly N ALLOW and K−N DENY", and both
observed the same pre-limit state yet both succeeded. -/
theorem checkTail_interleaving_two_allows :
    (RateLimiter.init 1 0 5 0 0).times = 1 ∧
    Store.empty.get "k" = none ∧
    ((RateLimiter.init 1 0 5 0 0).checkTail (Store.empty.get "k")
        Store.empty "k" 0).1 = .allow ∧
    ((RateLimiter.init 1 0 5 0 0).checkTail (Store.empty.get "k")
        ((RateLimiter.init 1 0 5 0 0).checkTail (Store.empty.get "k")
          Store.empty "k" 0).2 "k" 0).1 = .allow := by
  refine ⟨rfl, rfl, ?_, ?_⟩ <;>
    norm_num [RateLimiter.checkTail, Store.get, Store.empty]

/-- C1 (amended): when the `K` checks on one fresh key are serialized —
each check's get-then-set completes before the next begins, which is what
actually happens on the single-threaded event loop because `_check` never
awaits between its `get` and its `set` — then with `limit = N ≥ 1` and
`K > N` checks inside the window, exactly `N` ALLOW and `K − N` DENY.
The per-operation `CacheStore` lock alone does not provide this
(see the interleaving counterexample). -/
theorem runChecks_serialized_exactly_limit (cfg : RateLimiter) (st : Store)
    (key : String) (t : ℚ) (rest : List ℚ) (N : ℕ)
    (htimes : cfg.times = (N : ℤ)) (hN : 1 ≤ N)
    (hfresh : st.get key = none)
    (hK : N < (t :: rest).length)
    (hrest : ∀ u ∈ rest, u ≤ t + (cfg.ttl_seconds : ℚ)) :
    ((cfg.runChecks key (t :: rest) st).1.countP (fun r => r.isAllow)) = N ∧
    ((cfg.runChecks key (t :: rest) st).1.countP (fun r => ! r.isAllow)) =
      (t :: rest).length - N := by
  have hrestlen : N - 1 ≤ rest.length := by
    simp only [List.length_cons] at hK; omega
  have hsplit : rest = rest.take (N - 1) ++ rest.drop (N - 1) :=
    (List.take_append_drop _ _).symm
  rw [RateLimiter.runChecks_cons, cfg.check_fresh t hfresh, hsplit,
    RateLimiter.runChecks_append]
  have hrec₁ : (st.set key ⟨1, t + (cfg.ttl_seconds : ℚ)⟩).get key =
      some ⟨1, t + (cfg.ttl_seconds : ℚ)⟩ := Store.get_set_self st key _
  have htake : ∀ u ∈ rest.take (N - 1), u ≤ t + (cfg.ttl_seconds : ℚ) :=
    fun u hu => hrest u (List.take_subset _ _ hu)
  have htakelen : (rest.take (N - 1)).length = N - 1 := by
    simp [List.length_take, Nat.min_eq_left hrestlen]
  have hroom : (1 : ℤ) + (rest.take (N - 1)).length ≤ cfg.times := by
    rw [htimes, htakelen]; omega
  rw [cfg.runChecks_under key _ _ 1 _ hrec₁ htake hroom]
  have hrec₂ :
      ((st.set key ⟨1, t + (cfg.ttl_seconds : ℚ)⟩).set key
          ⟨1 + (rest.take (N - 1)).length, t + (cfg.ttl_seconds : ℚ)⟩).get key =
        some ⟨1 + (rest.take (N - 1)).length, t + (cfg.ttl_seconds : ℚ)⟩ :=
    Store.get_set_self _ key _
  have hdrop : ∀ u ∈ rest.drop (N - 1), u ≤ t + (cfg.ttl_seconds : ℚ) :=
    fun u hu => hrest u (List.drop_subset _ _ hu)
  have hfull : (1 : ℤ) + (rest.take (N - 1)).length ≥ cfg.times := by
    rw [htimes, htakelen]; omega
  rw [cfg.runChecks_saturated key _ _ _ _ hrec₂ hdrop hfull]
  have hdroplen : (rest.drop (N - 1)).length = rest.length - (N - 1) := by
    simp [List.length_drop]
  constructor
  · rw [List.countP_cons, List.countP_append, countP_isAllow_replicate,
      countP_isAllow_map_deny]
    have : ((fun r => r.isAllow) CheckResult.allow) = true := rfl
    rw [if_pos this]
    omega
  · rw [List.countP_cons, List.countP_append, countP_not_isAllow_replicate,
      countP_not_isAllow_map_deny]
    have : ¬ ((fun r => ! r.isAllow) CheckResult.allow) = true := by
      simp [CheckResult.isAllow]
    rw [if_neg this]
    simp only [List.length_cons, List.length_append]
    omega

/-- Witness for C1 (amended): `limit = 1`, three serialized checks at
times 0, 1, 2 inside the 5-second window: exactly one ALLOW, two DENY. -/
theorem runChecks_serialized_exactly_limit_witness :
    (RateLimiter.init 1 0 5 0 0).times = ((1 : ℕ) : ℤ) ∧ 1 ≤ 1 ∧
    Store.empty.get "k" = none ∧ 1 < ((0 : ℚ) :: [(1 : ℚ), 2]).length ∧
    (∀ u ∈ [(1 : ℚ), 2], u ≤ 0 + ((RateLimiter.init 1 0 5 0 0).ttl_seconds : ℚ)) ∧
    (((RateLimiter.init 1 0 5 0 0).runChecks "k" ((0 : ℚ) :: [1, 2])
        Store.empty).1.countP (fun r => r.isAllow)) = 1 ∧
    (((RateLimiter.init 1 0 5 0 0).runChecks "k" ((0 : ℚ) :: [1, 2])
        Store.empty).1.countP (fun r => ! r.isAllow)) =
      ((0 : ℚ) :: [(1 : ℚ), 2]).length - 1 := by
  have h := runChecks_serialized_exactly_limit (RateLimiter.init 1 0 5 0 0)
    Store.empty "k" 0 [(1 : ℚ), 2] 1 rfl (by norm_num) rfl (by norm_num)
    (by norm_num [RateLimiter.init])
  exact ⟨rfl, by norm_num, rfl, by norm_num, by norm_num [RateLimiter.init],
    h.1, h.2⟩

/-- C3 (amended): through the limiter's own reads and writes, checks on
distinct composite keys never influence each other — in the store
abstraction without capacity eviction, any interleaving of checks on
other keys leaves the outcomes of key `A`'s checks and the final counter
at `A` exactly as if those other checks had not occurred.  (The deployed
bounded `TTLCache` can additionally evict `A`'s record under capacity
pressure from other keys; see the counterexample.) -/
theorem runEvents_distinct_keys_independent (es : List CheckEvent)
    (st : Store) (A : String) :
    (runEvents es st).1.filter (fun p => p.1 == A) =
      (runEvents (es.filter (fun e => e.key == A)) st).1 ∧
    (runEvents es st).2 A =
      (runEvents (es.filter (fun e => e.key == A)) st).2 A :=
  runEvents_localized es A st st rfl

/-- C3 counterexample: with the deployed bounded `TTLCache` (capacity 2
here; 2000 in `api.py`, the phenomenon is identical), checks on keys `B1`,
`B2` evict `A`'s record, so `A`'s second check ALLOWS where, without the
`B` checks, it would have DENIED with 97000 ms — distinct keys do
influence each other's counters via capacity eviction. -/
theorem checkTTL_eviction_breaks_independence :
    (RateLimiter.init 1 0 100 0 0).checkTTLResult
        ((RateLimiter.init 1 0 100 0 0).checkTTLState
          ((RateLimiter.init 1 0 100 0 0).checkTTLState
            ((RateLimiter.init 1 0 100 0 0).checkTTLState
              ⟨2, 3600, []⟩ "A" 0) "B1" 1) "B2" 2) "A" 3 =
      some .allow ∧
    (RateLimiter.init 1 0 100 0 0).checkTTLResult
        ((RateLimiter.init 1 0 100 0 0).checkTTLState
          ⟨2, 3600, []⟩ "A" 0) "A" 3 =
      some (.deny 97000) := by
  have hab1 : ("A" : String) ≠ "B1" := by decide
  have hab2 : ("A" : String) ≠ "B2" := by decide
  have hb1b2 : ("B1" : String) ≠ "B2" := by decide
  have e1 : (RateLimiter.init 1 0 100 0 0).checkTTLState ⟨2, 3600, []⟩
      "A" 0 = ⟨2, 3600, [("A", ⟨1, 100⟩, 3600)]⟩ := by
    norm_num [RateLimiter.checkTTLState, RateLimiter.checkTTL,
      TTLCacheState.get, TTLCacheState.set, RateLimiter.init, Except.map]
  have e2 : (RateLimiter.init 1 0 100 0 0).checkTTLState
      ⟨2, 3600, [("A", ⟨1, 100⟩, 3600)]⟩ "B1" 1 =
      ⟨2, 3600, [("A", ⟨1, 100⟩, 3600), ("B1", ⟨1, 101⟩, 3601)]⟩ := by
    norm_num [RateLimiter.checkTTLState, RateLimiter.checkTTL,
      TTLCacheState.get, TTLCacheState.set, RateLimiter.init, Except.map,
      hab1, hab1.symm]
  have e3 : (RateLimiter.init 1 0 100 0 0).checkTTLState
      ⟨2, 3600, [("A", ⟨1, 100⟩, 3600), ("B1", ⟨1, 101⟩, 3601)]⟩ "B2" 2 =
      ⟨2, 3600, [("B1", ⟨1, 101⟩, 3601), ("B2", ⟨1, 102⟩, 3602)]⟩ := by
    norm_num [RateLimiter.checkTTLState, RateLimiter.checkTTL,
      TTLCacheState.get, TTLCacheState.set, RateLimiter.init, Except.map,
      hab2, hab2.symm, hb1b2, hb1b2.symm]
  rw [e1, e2, e3]
  constructor <;>
    norm_num [RateLimiter.checkTTLResult, RateLimiter.checkTTL,
      TTLCacheState.get, TTLCacheState.set, RateLimiter.init, pyInt,
      Except.map, hab1, hab1.symm, hab2, hab2.symm, hb1b2, hb1b2.symm]

/-- C4 counterexample: a DENY decision whose remaining time is below one
millisecond yields `pexpire = max(0, int(remaining * 1000)) = 0`, and
`__call__` only invokes the rejection callback when `pexpire != 0` — so
this DENY comes back with no callback invocation (the request proceeds). -/
theorem call_submillisecond_deny_skips_callback :
    ((RateLimiter.init 1 0 5 0 0).check
        (Store.set Store.empty "k" ⟨1, 100⟩) "k" (100 - 1 / 2000)).1 =
      .deny 0 ∧
    ((RateLimiter.init 1 0 5 0 0).call
        (Store.set Store.empty "k" ⟨1, 100⟩) "k" (100 - 1 / 2000)).1 =
      .passed := by
  constructor <;>
    norm_num [RateLimiter.check, RateLimiter.call, RateLimiter.checkTail,
      Store.get, Store.set, Store.empty, pyInt, CheckResult.pexpire,
      RateLimiter.init]

/-- C4 (amended): whenever the check's decision is DENY with a nonzero
millisecond remainder `m`, `__call__` invokes the configured (default)
rejection callback with the caller context and `m`, and that callback
raises a 429 whose `Retry-After` is `ceil(m / 1000)` — the remaining time
in whole seconds rounded up from the millisecond remainder (the two
inequalities characterize the rounding).  A DENY whose remainder
truncates to 0 ms skips the callback (see the counterexample). -/
theorem call_deny_invokes_default_callback (cfg : RateLimiter) (st : Store)
    (key : String) (now : ℚ) (m : ℤ)
    (hdeny : (cfg.check st key now).1 = .deny m) (hm : m ≠ 0) :
    cfg.call st key now =
      (.rejected m (http_default_callback m), (cfg.check st key now).2) ∧
    (http_default_callback m).retryAfter = ⌈(m : ℚ) / 1000⌉ ∧
    (m : ℚ) ≤ (⌈(m : ℚ) / 1000⌉ : ℚ) * 1000 ∧
    ((⌈(m : ℚ) / 1000⌉ : ℚ) - 1) * 1000 < m := by
  have h1000 : (0 : ℚ) < 1000 := by norm_num
  refine ⟨?_, rfl, ?_, ?_⟩
  · simp [RateLimiter.call, hdeny, CheckResult.pexpire, hm]
  · have h := Int.le_ceil ((m : ℚ) / 1000)
    calc (m : ℚ) = (m : ℚ) / 1000 * 1000 := by field_simp
    _ ≤ (⌈(m : ℚ) / 1000⌉ : ℚ) * 1000 := by
        exact mul_le_mul_of_nonneg_right h (by norm_num)
  · have h := Int.ceil_lt_add_one ((m : ℚ) / 1000)
    have h2 : ((⌈(m : ℚ) / 1000⌉ : ℚ) - 1) < (m : ℚ) / 1000 := by linarith
    calc ((⌈(m : ℚ) / 1000⌉ : ℚ) - 1) * 1000
        < (m : ℚ) / 1000 * 1000 := by
          exact mul_lt_mul_of_pos_right h2 h1000
    _ = (m : ℚ) := by field_simp

/-- Witness for C4 (amended): a saturated record denied at `now = 50` of a
window ending at 100 carries `m = 50000` ms; the callback is invoked with
50000 and `Retry-After: 50`. -/
theorem call_deny_invokes_default_callback_witness :
    ((RateLimiter.init 1 0 5 0 0).check
        (Store.set Store.empty "k" ⟨1, 100⟩) "k" 50).1 = .deny 50000 ∧
    (50000 : ℤ) ≠ 0 ∧
    (RateLimiter.init 1 0 5 0 0).call (Store.set Store.empty "k" ⟨1, 100⟩)
        "k" 50 =
      (.rejected 50000 (http_default_callback 50000),
        ((RateLimiter.init 1 0 5 0 0).check
          (Store.set Store.empty "k" ⟨1, 100⟩) "k" 50).2) ∧
    (http_default_callback 50000).retryAfter = ⌈((50000 : ℤ) : ℚ) / 1000⌉ ∧
    ((50000 : ℤ) : ℚ) ≤ (⌈((50000 : ℤ) : ℚ) / 1000⌉ : ℚ) * 1000 ∧
    ((⌈((50000 : ℤ) : ℚ) / 1000⌉ : ℚ) - 1) * 1000 < ((50000 : ℤ) : ℚ) := by
  have hdeny : ((RateLimiter.init 1 0 5 0 0).check
      (Store.set Store.empty "k" ⟨1, 100⟩) "k" 50).1 = .deny 50000 := by
    norm_num [RateLimiter.check, RateLimiter.checkTail, Store.get,
      Store.set, Store.empty, pyInt, RateLimiter.init]
  have h := call_deny_invokes_default_callback (RateLimiter.init 1 0 5 0 0)
    (Store.set Store.empty "k" ⟨1, 100⟩) "k" 50 50000 hdeny (by norm_num)
  exact ⟨hdeny, by norm_num, h.1, h.2.1, h.2.2.1, h.2.2.2⟩

/-- C9 counterexample: `CacheManager.__init__` with capacity 0 succeeds
for both eviction policies — `cachetools` validates nothing at
construction, so nothing raises and the `try/except` stays idle. -/
theorem initCache_nonpositive_capacity_succeeds :
    CacheManager.initCache .TTLCache 0 3600 = .ok (.ttl ⟨0, 3600, []⟩) ∧
    CacheManager.initCache .LRUCache 0 3600 = .ok (.lru ⟨0, []⟩) ∧
    (0 : ℤ) ≤ 0 := ⟨rfl, rfl, le_refl 0⟩

/-- C9 (amended): construction succeeds for every capacity (positive or
not) under both eviction policies; a non-positive capacity instead makes
every subsequent insertion fail with `ValueError("value too large")`
(shown for the TTL policy — the failing size guard lives in the shared
`Cache.__setitem__`). -/
theorem initCache_never_fails_and_set_fails (max_size ttl : ℤ)
    (key : String) (v : RateRecord) (now : ℚ) (hcap : max_size ≤ 0) :
    CacheManager.initCache .TTLCache max_size ttl =
      .ok (.ttl ⟨max_size, ttl, []⟩) ∧
    CacheManager.initCache .LRUCache max_size ttl =
      .ok (.lru ⟨max_size, []⟩) ∧
    TTLCacheState.set ⟨max_size, ttl, []⟩ key v now =
      .error "value too large" := by
  have h : (1 : ℤ) > max_size := by omega
  exact ⟨rfl, rfl, by simp [TTLCacheState.set, h]⟩

/-- Witness for C9 (amended) at capacity 0. -/
theorem initCache_never_fails_and_set_fails_witness :
    (0 : ℤ) ≤ 0 ∧
    CacheManager.initCache .TTLCache 0 3600 = .ok (.ttl ⟨0, 3600, []⟩) ∧
    CacheManager.initCache .LRUCache 0 3600 = .ok (.lru ⟨0, []⟩) ∧
    TTLCacheState.set ⟨0, 3600, []⟩ "k" ⟨1, 5⟩ 0 =
      .error "value too large" := by
  have h := initCache_never_fails_and_set_fails 0 3600 "k" ⟨1, 5⟩ 0
    (by norm_num)
  exact ⟨by norm_num, h.1, h.2.1, h.2.2⟩

/-- C8: a check performed strictly after the stored `windowExpiresAt`
overwrites the record with `count = 1` and
`windowExpiresAt = now + windowDuration` and answers ALLOW, whatever the
pre-reset count was. -/
theorem check_window_reset (cfg : RateLimiter) (st : Store) (key : String)
    (now : ℚ) (c : ℤ) (e : ℚ) (hrec : st.get key = some ⟨c, e⟩)
    (hlate : now > e) :
    cfg.check st key now =
      (.allow, st.set key ⟨1, now + (cfg.ttl_seconds : ℚ)⟩) :=
  cfg.check_expired now hrec hlate

/-- Witness for C8: a saturated record with count 7 whose window ended at
5 is reset by a check at `now = 6` to `(1, 6 + window)` with ALLOW. -/
theorem check_window_reset_witness :
    (Store.set Store.empty "k" ⟨7, 5⟩).get "k" = some ⟨7, 5⟩ ∧
    (6 : ℚ) > 5 ∧
    (RateLimiter.init 3 0 5 0 0).check (Store.set Store.empty "k" ⟨7, 5⟩)
        "k" 6 =
      (.allow,
        Store.set (Store.set Store.empty "k" ⟨7, 5⟩) "k"
          ⟨1, 6 + ((RateLimiter.init 3 0 5 0 0).ttl_seconds : ℚ)⟩) :=
  ⟨rfl, by norm_num,
    check_window_reset _ _ "k" 6 7 5 rfl (by norm_num)⟩

end WebappTemplate
